import Mathlib

/-!
Verification development for the FORKAST scraping core.

Shallow embedding of the resilient web-scraping and session-lifecycle
subsystem: the scrape-status tracker (`services/scrape_status.py`), the
session manager (`scraper/stealth_browser.py`), the Uber Eats extractor
(`scraper/ubereats_scraper.py`) and the scrape orchestrator
(`services/operator_scraper.py`), together with theorems settling the
specification's claims about them.

Times and prices are modelled as rationals (the source uses `time.time()`
floats and `Decimal`); machine-level float rounding plays no role in any
property below.  DOM/JSON parsing by BeautifulSoup / `json.loads` is treated
as the input boundary: a document is embedded as the structured values the
source code actually inspects (JSON-LD script contents, candidate item
containers with the results of the source's fixed DOM queries).
-/

namespace Forkast

/-! ### Scrape status tracker (`services/scrape_status.py`) -/

/-- The five job states of `ScrapeState` (`scrape_status.py` lines 14-19). -/
inductive ScrapeState where
  | pending
  | running
  | success
  | failed
  | timeout
deriving DecidableEq, Repr

/-- `state in (SUCCESS, FAILED, TIMEOUT)` — the terminal-state test used by
`update_state` to decide whether to stamp `completed_at`. -/
def ScrapeState.isTerminal : ScrapeState → Bool
  | .success => true
  | .failed => true
  | .timeout => true
  | _ => false

/-- One `ScrapeJob` record (`scrape_status.py` lines 22-34).  Timestamps are
naturals (seconds); `completedAt` is `none` until a terminal update. -/
structure ScrapeJob where
  jobId : String
  sourceType : String
  sourceId : String
  platform : String
  url : String
  state : ScrapeState := .pending
  startedAt : Nat
  completedAt : Option Nat := none
  itemsScraped : Nat := 0
  errorMessage : Option String := none
deriving DecidableEq, Repr

/-- The in-memory tracker state: the `_jobs` dict (insertion-ordered assoc
list), `_job_counter` and `_max_jobs` (`scrape_status.py` lines 57-61).
The asyncio lock serialises operations; the embedding is the sequential
semantics under that lock. -/
structure Tracker where
  jobs : List (String × ScrapeJob)
  counter : Nat
  maxJobs : Nat := 100
deriving Repr

/-- Key of the entry with the minimal `startedAt` (first such key in
insertion order), i.e. `min(self._jobs, key=lambda k: self._jobs[k].started_at)`. -/
def oldestKey : List (String × ScrapeJob) → Option String
  | [] => none
  | (k, j) :: rest =>
    match oldestKey rest with
    | none => some k
    | some k' =>
      match rest.find? (fun p => p.1 = k') with
      | none => some k
      | some (_, j') => if j'.startedAt < j.startedAt then some k' else some k

/-- `ScrapeStatusTracker.create_job` (`scrape_status.py` lines 63-89):
increments the counter, builds the id `scrape_{counter}_{timestamp}`, evicts
the oldest job when the map is full, inserts the new pending job. -/
def createJob (t : Tracker) (sourceType sourceId platform url : String)
    (now : Nat) : Tracker × ScrapeJob :=
  let counter := t.counter + 1
  let jobId := "scrape_" ++ toString counter ++ "_" ++ toString now
  let job : ScrapeJob :=
    { jobId := jobId, sourceType := sourceType, sourceId := sourceId,
      platform := platform, url := url, startedAt := now }
  let jobs :=
    if t.maxJobs ≤ t.jobs.length then
      match oldestKey t.jobs with
      | some k => t.jobs.filter (fun p => p.1 ≠ k)
      | none => t.jobs
    else t.jobs
  ({ t with counter := counter, jobs := jobs ++ [(jobId, job)] }, job)

/-- The per-record effect of `update_state` (`scrape_status.py` lines
99-107): state, items-scraped and error message are overwritten
unconditionally; `completed_at` is stamped exactly when the new state is
terminal (and left as-is otherwise). -/
def applyUpdate (j : ScrapeJob) (state : ScrapeState) (itemsScraped : Nat)
    (errorMessage : Option String) (now : Nat) : ScrapeJob :=
  { j with
    state := state
    itemsScraped := itemsScraped
    errorMessage := errorMessage
    completedAt := if state.isTerminal then some now else j.completedAt }

/-- `ScrapeStatusTracker.update_state` (`scrape_status.py` lines 91-107):
`if job_id in self._jobs:` mutate that record, otherwise do nothing. -/
def updateState (t : Tracker) (jobId : String) (state : ScrapeState)
    (itemsScraped : Nat) (errorMessage : Option String) (now : Nat) : Tracker :=
  { t with
    jobs := t.jobs.map (fun p =>
      if p.1 = jobId then (p.1, applyUpdate p.2 state itemsScraped errorMessage now)
      else p) }

/-- `ScrapeStatusTracker.get_job` (`scrape_status.py` lines 109-112). -/
def getJob (t : Tracker) (jobId : String) : Option ScrapeJob :=
  (t.jobs.find? (fun p => p.1 = jobId)).map (·.2)

/-! ### Session manager (`scraper/stealth_browser.py`) -/

/-- The session-relevant state of `AsyncStealthBrowser` (`stealth_browser.py`
lines 50-60): whether `BROWSERLESS_TOKEN` is set (truthy), whether `_browser`
is non-`None`, `_session_created_at`, and `_session_timeout_seconds`
(60 by default; set to 999999 by a local `start`).  Clock instants are
rationals standing for `time.time()` values. -/
structure BrowserState where
  hasToken : Bool
  browserLive : Bool
  sessionCreatedAt : Option ℚ := none
  sessionTimeoutSeconds : ℚ := 60
deriving DecidableEq, Repr

/-- `_reconnect_delay_seconds = 2.0` (`stealth_browser.py` line 60). -/
def reconnectDelaySeconds : ℚ := 2

/-- `get_session_age` (`stealth_browser.py` lines 73-77): seconds since the
session was created, `0` when there is no session. -/
def getSessionAge (st : BrowserState) (now : ℚ) : ℚ :=
  match st.sessionCreatedAt with
  | none => 0
  | some created => now - created

/-- `get_remaining_time` (`stealth_browser.py` lines 79-85):
`max(0, timeout - elapsed)`, or `0` when there is no session. -/
def getRemainingTime (st : BrowserState) (now : ℚ) : ℚ :=
  match st.sessionCreatedAt with
  | none => 0
  | some created => max 0 (st.sessionTimeoutSeconds - (now - created))

/-- `is_session_fresh` (`stealth_browser.py` lines 87-93): always true
without a provider token; false when no browser is connected; otherwise true
iff the remaining time is at least `required_time`. -/
def isSessionFresh (st : BrowserState) (requiredTime : Int) (now : ℚ) : Bool :=
  if !st.hasToken then true
  else if !st.browserLive then false
  else decide ((requiredTime : ℚ) ≤ getRemainingTime st now)

/-- The successful-connection effect of `start` (`stealth_browser.py` lines
179-243): a no-op when a browser is already up; otherwise connects and
records `_session_created_at = time.time()`; the local fallback additionally
sets `_session_timeout_seconds = 999999`.  (`start`'s rate-limit retry loop
and its failure exceptions are outside every claim below, so this models the
successful path, parametrised by the instant `now` at which the connection
completes.) -/
def startSession (st : BrowserState) (now : ℚ) : BrowserState :=
  if st.browserLive then st
  else if st.hasToken then
    { st with browserLive := true, sessionCreatedAt := some now }
  else
    { st with
      browserLive := true
      sessionCreatedAt := some now
      sessionTimeoutSeconds := 999999 }

/-- `stop` (`stealth_browser.py` lines 245-262): closes the browser
(best-effort) and clears `_session_created_at`. -/
def stopSession (st : BrowserState) : BrowserState :=
  { st with browserLive := false, sessionCreatedAt := none }

/-- Externally visible steps taken by `ensure_fresh_session` /
`with_session_retry`. -/
inductive SessionEvent where
  | stopEv
  | sleepEv (seconds : ℚ)
  | startEv
deriving DecidableEq, Repr

/-- `ensure_fresh_session` (`stealth_browser.py` lines 95-115): without a
token, or without a live browser, just `start()`; otherwise reconnect
(`stop`, sleep `_reconnect_delay_seconds`, `start`) exactly when the
remaining time at `now` is below `required_time`.  `now2` is the instant the
(possible) restart completes; the resulting event list records the steps
taken. -/
def ensureFreshSession (st : BrowserState) (requiredTime : Int)
    (now now2 : ℚ) : List SessionEvent × BrowserState :=
  if !st.hasToken then ([.startEv], startSession st now2)
  else if !st.browserLive then ([.startEv], startSession st now2)
  else
    let remaining := getRemainingTime st now
    if remaining < (requiredTime : ℚ) then
      ([.stopEv, .sleepEv reconnectDelaySeconds, .startEv],
        startSession (stopSession st) now2)
    else ([], st)

/-- The substring patterns of `_is_session_expired_error`
(`stealth_browser.py` lines 123-133). -/
def sessionExpiredPatterns : List String :=
  ["target closed", "protocol error", "session closed",
   "browser has been closed", "connection closed", "page closed",
   "context closed", "websocket error", "net::err_connection_closed"]

/-- `needle` occurs as a contiguous substring of `hay` (Python's
`pattern in error_str`). -/
def charsContain (needle : List Char) : List Char → Bool
  | [] => needle.isEmpty
  | c :: rest => needle.isPrefixOf (c :: rest) || charsContain needle rest

/-- String form of `charsContain`. -/
def strContains (hay needle : String) : Bool :=
  charsContain needle.toList hay.toList

/-- Python's `str.lower()` on the ASCII strings involved here: lowercase
every character. -/
def lowerString (s : String) : String :=
  ⟨s.data.map Char.toLower⟩

/-- Python's `str.strip()`: drop leading and trailing whitespace. -/
def trimString (s : String) : String :=
  ⟨(((s.data.dropWhile Char.isWhitespace).reverse).dropWhile
      Char.isWhitespace).reverse⟩

/-- Python's `str.startswith(c)` for a single character. -/
def startsWithChar (s : String) (c : Char) : Bool :=
  match s.data with
  | [] => false
  | d :: _ => d = c

/-- `_is_session_expired_error` (`stealth_browser.py` lines 117-134):
lowercases the error text and checks it against the expiry patterns. -/
def isSessionExpiredError (errorStr : String) : Bool :=
  sessionExpiredPatterns.any (fun p => strContains (lowerString errorStr) p)

/-- Outcome of `with_session_retry`: the operation's value, the operation's
own re-raised error, or the distinct `BrowserSessionExpiredError` (carrying
the last underlying error text). -/
inductive RetryResult (T : Type) where
  | ok (value : T)
  | opError (message : String)
  | sessionExpired (lastError : String)
deriving DecidableEq, Repr

/-- Externally visible steps of `with_session_retry`: the initial
`ensure_fresh_session`, each execution of `operation`, and each
stop-sleep-start reconnection. -/
inductive RetryEvent where
  | ensureFresh
  | attemptEv (n : Nat)
  | reconnectEv
deriving DecidableEq, Repr

/-- The `for attempt in range(max_retries + 1)` loop of `with_session_retry`
(`stealth_browser.py` lines 160-177), with `remaining = max_retries -
attempt` as the structural index (so `attempt < max_retries` in the source is
`remaining ≠ 0` here).  The operation is a function of the attempt number to
either a value or an error message; a matching error with retries left
reconnects and continues, a matching error with none left raises
`BrowserSessionExpiredError`, a non-matching error is re-raised at once. -/
def retryLoop {T : Type} (op : Nat → Except String T) :
    Nat → Nat → RetryResult T × List RetryEvent
  | attempt, 0 =>
    match op attempt with
    | .ok v => (.ok v, [.attemptEv attempt])
    | .error e =>
      if isSessionExpiredError e then (.sessionExpired e, [.attemptEv attempt])
      else (.opError e, [.attemptEv attempt])
  | attempt, r + 1 =>
    match op attempt with
    | .ok v => (.ok v, [.attemptEv attempt])
    | .error e =>
      if isSessionExpiredError e then
        let (res, evs) := retryLoop op (attempt + 1) r
        (res, .attemptEv attempt :: .reconnectEv :: evs)
      else (.opError e, [.attemptEv attempt])

/-- `with_session_retry` (`stealth_browser.py` lines 136-177): ensure a
fresh session, then run the retry loop starting at attempt 0 with
`max_retries` retries available. -/
def withSessionRetry {T : Type} (op : Nat → Except String T)
    (maxRetries : Nat) : RetryResult T × List RetryEvent :=
  let (res, evs) := retryLoop op 0 maxRetries
  (res, .ensureFresh :: evs)

/-! ### Uber Eats extractor (`scraper/ubereats_scraper.py`)

Prices are rationals standing for `Decimal` values.  A page is embedded as
the structured data the parser actually reads: for the JSON-LD path, the
outcome of `json.loads` on each `application/ld+json` script (already
reduced to the `hasMenu → hasMenuSection → hasMenuItem` shape the code walks,
or `none` when the script is skipped — invalid JSON, not a dict, or no such
menu); for the heuristic path, each candidate container with the results of
the fixed DOM queries the code performs on it. -/

/-- `ScrapedMenuItem` (`ubereats_scraper.py` lines 24-32). -/
structure ScrapedMenuItem where
  name : String
  price : ℚ
  category : Option String := none
  description : Option String := none
  isAvailable : Bool := true
  position : Nat := 0
deriving DecidableEq, Repr

/-- `ScrapeResult` (`ubereats_scraper.py` lines 35-43), with the dataclass
defaults (`success = True`, empty `items`, no error). -/
structure ScrapeResult where
  restaurantName : String
  platform : String := "ubereats"
  items : List ScrapedMenuItem := []
  success : Bool := true
  errorMessage : Option String := none
deriving DecidableEq, Repr

/-- One `hasMenuItem` entry as read by `_extract_from_json_ld`
(`ubereats_scraper.py` lines 207-231): `name` (`none` for an absent or falsy
value, which the code skips), the price successfully parsed from
`offers['price']` (`none` when `offers` is not a dict, has no parseable
price — the code then keeps `Decimal("0.00")`), and `description`. -/
structure JsonLdItem where
  name : Option String := none
  offersPrice : Option ℚ := none
  description : Option String := none
deriving DecidableEq, Repr

/-- One `hasMenuSection` entry: `section.get('name')` (the code substitutes
`'Uncategorized'` when absent) and its `hasMenuItem` list (`[]` when
absent). -/
structure JsonLdSection where
  name : Option String := none
  items : List JsonLdItem := []
deriving DecidableEq, Repr

/-- One candidate item container of the heuristic path, carrying the results
of the DOM queries `_extract_item_from_element` performs on it
(`ubereats_scraper.py` lines 311-362): the raw `alt` attribute of the first
`img` (`none` when there is no `img` or no `alt`), the stripped text of the
first `h3` (`none` when there is no `h3`), the stripped texts of all `span`
descendants in document order, the first match of the currency regex
`[£$](\d+(?:\.\d{2})?)` in the container's text (`none` when it does not
match), and the digits of the first `(\d+)\s*Cal` match. -/
structure DomElement where
  imgAlt : Option String := none
  h3Text : Option String := none
  spans : List String := []
  priceMatch : Option ℚ := none
  calMatch : Option String := none
deriving DecidableEq, Repr

/-- One `store-catalog-section-vertical-grid` section of the heuristic path
(`ubereats_scraper.py` lines 256-270): the nearest ancestor
`catalog-section-title` text found by the five-level parent walk (`none`
when absent), and the section's `store-item-*` containers in document
order. -/
structure DomSection where
  categoryTitle : Option String := none
  items : List DomElement := []
deriving DecidableEq, Repr

/-- A parsed page: the JSON-LD scripts (in document order, each reduced as
in `JsonLdSection`), the catalog sections, and the document-wide
`store-item-*` query used by the no-sections fallback
(`ubereats_scraper.py` line 282). -/
structure Doc where
  scripts : List (Option (List JsonLdSection)) := []
  sections : List DomSection := []
  allStoreItems : List DomElement := []
deriving Repr

/-- Python truthiness of an optional string: `None` and `""` are falsy. -/
def pyTruthy : Option String → Bool
  | none => false
  | some s => s ≠ ""

/-- The UI-chrome phrases of `_is_ui_element` (`ubereats_scraper.py` lines
295-299). -/
def uiPatterns : List String :=
  ["sign up", "log in", "sign in", "view cart", "checkout",
   "delivery fee", "service fee", "get it delivered",
   "enter your address", "group order", "schedule"]

/-- `_is_ui_element` (`ubereats_scraper.py` lines 293-309): lowercase and
strip the name; names shorter than 3 characters are UI noise, as is any name
containing one of the UI phrases. -/
def isUiElement (name : String) : Bool :=
  let nameLower := trimString (lowerString name)
  if nameLower.length < 3 then true
  else uiPatterns.any (fun p => strContains nameLower p)

/-- The span filter of name method 3 (`ubereats_scraper.py` line 331):
non-empty, `3 < len < 80`, and not starting with `£`, `$` or `#`. -/
def plausibleSpan (text : String) : Bool :=
  text ≠ "" && decide (3 < text.length) && decide (text.length < 80) &&
    !(startsWithChar text '£' || startsWithChar text '$' ||
      startsWithChar text '#')

/-- The name chosen by `_extract_item_from_element` (`ubereats_scraper.py`
lines 314-333): first the `img` `alt` (when truthy, stripped), then — when
the name so far is falsy — the `h3` text, then the first plausible `span`
text. -/
def chooseName (e : DomElement) : Option String :=
  let name1 : Option String :=
    match e.imgAlt with
    | some a => if a ≠ "" then some (trimString a) else none
    | none => none
  let name2 : Option String :=
    if pyTruthy name1 then name1
    else match e.h3Text with
      | some t => some t
      | none => name1
  if pyTruthy name2 then name2
  else match e.spans.find? plausibleSpan with
    | some t => some t
    | none => name2

/-- `_extract_item_from_element` (`ubereats_scraper.py` lines 311-362):
choose a name (reject falsy or single-character names), take the regex price
(defaulting to `Decimal("0.00")`), and build the calorie description when
present. -/
def extractItemFromElement (e : DomElement) (position : Nat)
    (category : Option String) : Option ScrapedMenuItem :=
  match chooseName e with
  | none => none
  | some name =>
    if name = "" ∨ name.length < 2 then none
    else
      some { name := name
             price := e.priceMatch.getD 0
             category := category
             description := e.calMatch.map (fun c => c ++ " calories")
             position := position }

/-- The accumulator of `_parse_menu_from_html`: collected items, the next
position counter, and the `seen_names` set (as the list of accepted names,
in acceptance order). -/
structure ParseState where
  items : List ScrapedMenuItem := []
  position : Nat := 0
  seen : List String := []
deriving Repr

/-- The body of the inner loop of `_parse_menu_from_html`
(`ubereats_scraper.py` lines 272-278 and 283-289): extract an item; accept
it only when its name is unseen and not UI chrome, in which case the
position counter advances and the name becomes seen. -/
def acceptElement (st : ParseState) (e : DomElement)
    (category : Option String) : ParseState :=
  match extractItemFromElement e st.position category with
  | none => st
  | some item =>
    if item.name ∉ st.seen then
      if !isUiElement item.name then
        { items := st.items ++ [item]
          position := st.position + 1
          seen := st.seen ++ [item.name] }
      else st
    else st

/-- The element loop over one list of candidates with a fixed category. -/
def parseElements (st : ParseState) (category : Option String) :
    List DomElement → ParseState
  | [] => st
  | e :: rest => parseElements (acceptElement st e category) category rest

/-- The section loop of `_parse_menu_from_html` (lines 258-278). -/
def parseSections (st : ParseState) : List DomSection → ParseState
  | [] => st
  | s :: rest => parseSections (parseElements st s.categoryTitle s.items) rest

/-- `_parse_menu_from_html` (`ubereats_scraper.py` lines 244-291): walk the
catalog sections; when that yields nothing, walk every `store-item-*`
container in the document with no category. -/
def parseMenuFromHtml (doc : Doc) : List ScrapedMenuItem :=
  let st := parseSections {} doc.sections
  if st.items.isEmpty then
    (parseElements st none doc.allStoreItems).items
  else st.items

/-- The item loop of `_extract_from_json_ld` (`ubereats_scraper.py` lines
207-231): skip falsy names; price defaults to `Decimal("0.00")` when
`offers` yields none; the section's category is `section.get('name',
'Uncategorized')`. -/
def addJsonLdItem (st : List ScrapedMenuItem × Nat) (category : Option String)
    (it : JsonLdItem) : List ScrapedMenuItem × Nat :=
  if pyTruthy it.name then
    (st.1 ++ [{ name := it.name.getD ""
                price := it.offersPrice.getD 0
                category := some (category.getD "Uncategorized")
                description := it.description
                position := st.2 }],
     st.2 + 1)
  else st

/-- The section loop of `_extract_from_json_ld` (lines 203-231). -/
def addJsonLdSection (st : List ScrapedMenuItem × Nat)
    (sec : JsonLdSection) : List ScrapedMenuItem × Nat :=
  sec.items.foldl (fun st it => addJsonLdItem st sec.name it) st

/-- The script loop of `_extract_from_json_ld` (`ubereats_scraper.py` lines
183-242): skipped scripts contribute nothing; after a processed script, `if
items: return items` stops at the first script that has made the cumulative
item list non-empty. -/
def extractFromJsonLdLoop (st : List ScrapedMenuItem × Nat) :
    List (Option (List JsonLdSection)) → List ScrapedMenuItem
  | [] => st.1
  | script :: rest =>
    match script with
    | none => extractFromJsonLdLoop st rest
    | some sections =>
      let st2 := sections.foldl addJsonLdSection st
      if st2.1.isEmpty then extractFromJsonLdLoop st2 rest else st2.1

/-- `_extract_from_json_ld` over a document's scripts. -/
def extractFromJsonLd (doc : Doc) : List ScrapedMenuItem :=
  extractFromJsonLdLoop ([], 0) doc.scripts

/-- `_parse_menu_html` (`ubereats_scraper.py` lines 164-181): the JSON-LD
path is authoritative when it yields any items; otherwise fall back to the
heuristic path. -/
def parseMenuHtml (doc : Doc) : List ScrapedMenuItem :=
  let items := extractFromJsonLd doc
  if !items.isEmpty then items else parseMenuFromHtml doc

/-- `UberEatsScraper.scrape` (`ubereats_scraper.py` lines 106-162), as a
function of the outcome of the navigate-and-parse block: either an exception
with message `e` (any step of the `try` body raising), or the parsed item
list.  The result starts from the dataclass defaults with empty items; on
success the flag is `len(items) > 0`, with the fixed error message when no
items were found; on an exception the flag is cleared and the message is the
exception's text. -/
def scrape (restaurantName : String)
    (parsed : Except String (List ScrapedMenuItem)) : ScrapeResult :=
  let result : ScrapeResult :=
    { restaurantName := restaurantName, platform := "ubereats", items := [] }
  match parsed with
  | .ok items =>
    { result with
      items := items
      success := decide (0 < items.length)
      errorMessage := if items.isEmpty then some "No menu items found" else none }
  | .error e =>
    { result with success := false, errorMessage := some e }

/-! ### Scrape orchestrator (`services/operator_scraper.py`) -/

/-- `SCRAPE_TIMEOUT = 180` (`operator_scraper.py` line 19). -/
def scrapeTimeout : Nat := 180

/-- The fixed message passed with the `TIMEOUT` update
(`operator_scraper.py` line 59). -/
def scrapeTimeoutMessage : String :=
  "Scraping timed out after " ++ toString scrapeTimeout ++
    " seconds. The restaurant page may be too large or slow to load."

/-- Python's `s or default` for an optional string: the string itself when
truthy, the default otherwise. -/
def pyOr (s : Option String) (default : String) : String :=
  if pyTruthy s then s.getD "" else default

/-- The user-facing message classification of the `except` branch
(`operator_scraper.py` lines 141-148). -/
def classifyError (msg : String) : String :=
  if strContains (lowerString msg) "timeout" then
    "The page took too long to load. Please try again."
  else if strContains (lowerString msg) "net::" then
    "Could not connect to the website. Please check your URL."
  else if strContains (lowerString msg) "browser" then
    "Browser error occurred. Please try again later."
  else "Scraping failed: " ++ msg.take 100

/-- How the awaited scrape ends, from the orchestrator's viewpoint: the
`asyncio.wait_for` guard fires (`asyncio.TimeoutError`), the scrape returns
a `ScrapeResult`, or an exception propagates to the outer `except` (with its
message). -/
inductive TaskOutcome where
  | timedOut
  | scraped (result : ScrapeResult)
  | raised (message : String)
deriving Repr

/-- One `update_state` call issued by the task: the arguments passed (with
the call-site defaults `items_scraped = 0`, `error_message = None`). -/
structure TrackerUpdate where
  state : ScrapeState
  itemsScraped : Nat := 0
  errorMessage : Option String := none
deriving DecidableEq, Repr

/-- `scrape_operator_menu_task` (`operator_scraper.py` lines 22-161), as the
sequence of `update_state` calls it issues for its job: first `RUNNING`;
then, for the Uber Eats platform, `TIMEOUT` with the fixed message on a
timeout (returning immediately), `FAILED` with the result's (or a fallback)
message on an unsuccessful or empty result, `SUCCESS` with the item count
after persisting, and `FAILED` with a classified message on an uncaught
exception; any other platform fails with the DoorDash message.  (Database
persistence and the `finally` browser cleanup touch no job state.) -/
def taskUpdates (platform : String) (outcome : TaskOutcome) :
    List TrackerUpdate :=
  let runningUpd : TrackerUpdate := { state := .running }
  if platform = "ubereats" then
    match outcome with
    | .timedOut =>
      [runningUpd,
       { state := .timeout, errorMessage := some scrapeTimeoutMessage }]
    | .scraped r =>
      if !r.success then
        [runningUpd,
         { state := .failed,
           errorMessage := some (pyOr r.errorMessage "Failed to scrape menu items") }]
      else if r.items.isEmpty then
        [runningUpd,
         { state := .failed,
           errorMessage :=
             some "No menu items found on the page. Please check the URL is correct." }]
      else
        [runningUpd, { state := .success, itemsScraped := r.items.length }]
    | .raised msg =>
      [runningUpd,
       { state := .failed, errorMessage := some (classifyError msg) }]
  else
    [runningUpd,
     { state := .failed,
       errorMessage :=
         some "DoorDash scraping is not yet implemented. Please use Uber Eats URL." }]

/-- Replay a task's `update_state` calls against a tracker (each call at
instant `now`). -/
def applyTaskUpdates (t : Tracker) (jobId : String)
    (updates : List TrackerUpdate) (now : Nat) : Tracker :=
  updates.foldl
    (fun t u => updateState t jobId u.state u.itemsScraped u.errorMessage now) t

/-! ### Derived notions used by the theorems -/

/-- The name `_extract_item_from_element` settles on for a candidate, after
its falsy / too-short rejection (the name is independent of the position
counter and the category). -/
def extractedName (e : DomElement) : Option String :=
  (chooseName e).bind (fun n => if n = "" ∨ n.length < 2 then none else some n)

/-- The names a candidate contributes to the heuristic pass before the
`seen_names` check: its extracted name when that name is not UI chrome
(`[]` when extraction fails or the name is filtered). -/
def acceptedName (e : DomElement) : List String :=
  match extractedName e with
  | some n => if isUiElement n then [] else [n]
  | none => []

/-- Accepted candidate names of a list of containers, in document order. -/
def acceptedNames (elems : List DomElement) : List String :=
  elems.flatMap acceptedName

/-- Accepted candidate names across the catalog sections. -/
def acceptedNamesSections (secs : List DomSection) : List String :=
  secs.flatMap (fun s => acceptedNames s.items)

/-- First-occurrence deduplication relative to an already-seen list: keep
each name the first time it appears, drop later repetitions. -/
def dedupFirstAux (seen : List String) : List String → List String
  | [] => []
  | n :: rest =>
    if n ∈ seen then dedupFirstAux seen rest
    else n :: dedupFirstAux (seen ++ [n]) rest

/-- The invariant the heuristic pass maintains on its accumulator:
`seen_names` is exactly the accepted names, the position counter is the item
count, and the stored positions are consecutive `0, 1, 2, ...`. -/
def GoodState (st : ParseState) : Prop :=
  st.seen = st.items.map (·.name)
  ∧ st.position = st.items.length
  ∧ st.items.map (·.position) = List.range st.items.length

/-! ## Theorems -/

/-! ### Tracker lemmas -/

/-- Looking up the updated id after `update_state` yields the updated
record. -/
theorem find_map_update (l : List (String × ScrapeJob)) (jobId : String)
    (f : ScrapeJob → ScrapeJob) :
    ((l.map (fun p => if p.1 = jobId then (p.1, f p.2) else p)).find?
        (fun p => p.1 = jobId))
      = (l.find? (fun p => p.1 = jobId)).map (fun p => (p.1, f p.2)) := by
  induction l with
  | nil => rfl
  | cons p rest ih =>
    by_cases h : p.1 = jobId
    · simp [List.find?, h]
    · simp [List.find?, h, ih]

/-- `getJob` after `update_state` on the same id: the record, updated. -/
theorem getJob_updateState (t : Tracker) (jobId : String) (s : ScrapeState)
    (items : Nat) (err : Option String) (now : Nat) :
    getJob (updateState t jobId s items err now) jobId
      = (getJob t jobId).map (fun j => applyUpdate j s items err now) := by
  unfold getJob updateState
  simp only [find_map_update t.jobs jobId (fun j => applyUpdate j s items err now)]
  cases t.jobs.find? (fun p => p.1 = jobId) <;> rfl

/-- Mapping an id-conditional update over an assoc list without that id
changes nothing. -/
theorem map_update_eq_self (l : List (String × ScrapeJob)) (jobId : String)
    (s : ScrapeState) (items : Nat) (err : Option String) (now : Nat)
    (hl : ∀ p ∈ l, ¬(p.1 = jobId)) :
    l.map (fun p =>
        if p.1 = jobId then (p.1, applyUpdate p.2 s items err now) else p)
      = l := by
  induction l with
  | nil => rfl
  | cons p rest ih =>
    have hp : ¬(p.1 = jobId) := hl p (List.mem_cons_self p rest)
    have hrest : ∀ q ∈ rest, ¬(q.1 = jobId) := fun q hq =>
      hl q (List.mem_cons_of_mem p hq)
    simp [hp, ih hrest]

/-! ### C10 — `update_state` on an unknown job id is a silent no-op -/

/-- C10: for every job id that is not in the tracker's job map,
`update_state` raises no error and leaves the tracker — hence every tracked
job's state, items-scraped count, error message and completion timestamp —
completely unchanged. -/
theorem update_state_unknown_job_noop (t : Tracker) (jobId : String)
    (s : ScrapeState) (items : Nat) (err : Option String) (now : Nat)
    (h : getJob t jobId = none) :
    updateState t jobId s items err now = t := by
  have hfind : t.jobs.find? (fun p => p.1 = jobId) = none := by
    unfold getJob at h
    cases hf : t.jobs.find? (fun p => p.1 = jobId) with
    | none => rfl
    | some p => rw [hf] at h; simp at h
  have hl : ∀ p ∈ t.jobs, ¬(p.1 = jobId) := by
    intro p hp
    have := List.find?_eq_none.mp hfind p hp
    simpa using this
  unfold updateState
  rw [map_update_eq_self t.jobs jobId s items err now hl]

/-- Concrete run of C10: updating a job id absent from a one-job tracker
changes nothing. -/
theorem update_state_unknown_job_noop_witness :
    updateState
        { jobs := [("scrape_1_5",
            { jobId := "scrape_1_5", sourceType := "operator",
              sourceId := "o1", platform := "ubereats", url := "u",
              startedAt := 5 })],
          counter := 1 } "missing" .success 4 none 9
      = { jobs := [("scrape_1_5",
            { jobId := "scrape_1_5", sourceType := "operator",
              sourceId := "o1", platform := "ubereats", url := "u",
              startedAt := 5 })],
          counter := 1 } :=
  update_state_unknown_job_noop _ "missing" .success 4 none 9 (by decide)

/-! ### C2 — terminal states and `update_state` -/

/-- C2 counterexample: the tracker does not make terminal states final.  A
job created and driven to `success` through the tracker's own operations is
moved back to `running` by a further `update_state` call — `update_state`
(`scrape_status.py` lines 91-107) has no terminal-state guard. -/
theorem update_state_escapes_terminal_counterexample :
    (getJob
        (updateState
          (updateState
            (createJob { jobs := [], counter := 0 }
              "operator" "o1" "ubereats" "u" 5).1
            "scrape_1_5" .success 3 none 6)
          "scrape_1_5" .running 0 none 7)
        "scrape_1_5").map ScrapeJob.state = some .running
    ∧ (getJob
        (updateState
          (createJob { jobs := [], counter := 0 }
            "operator" "o1" "ubereats" "u" 5).1
          "scrape_1_5" .success 3 none 6)
        "scrape_1_5").map ScrapeJob.state = some .success := by
  constructor <;> rfl

/-- C2 amended: `update_state` overwrites a tracked job's state with the
requested state unconditionally, whatever state (terminal included) the job
was in; finality of `success`/`failed`/`timeout` is a discipline of the
orchestrator's call sequence, not an invariant enforced by the tracker. -/
theorem update_state_overwrites_tracked_job (t : Tracker) (jobId : String)
    (s : ScrapeState) (items : Nat) (err : Option String) (now : Nat)
    (h : (getJob t jobId).isSome) :
    (getJob (updateState t jobId s items err now) jobId).map ScrapeJob.state
      = some s := by
  obtain ⟨j, hj⟩ := Option.isSome_iff_exists.mp h
  rw [getJob_updateState, hj]
  rfl

/-- Concrete run of the amended C2: updating a pending tracked job to
`failed` yields exactly `failed`. -/
theorem update_state_overwrites_tracked_job_witness :
    (getJob
        (updateState
          (createJob { jobs := [], counter := 0 }
            "operator" "o1" "ubereats" "u" 5).1
          "scrape_1_5" .failed 0 (some "boom") 6)
        "scrape_1_5").map ScrapeJob.state = some .failed :=
  update_state_overwrites_tracked_job _ "scrape_1_5" .failed 0 (some "boom") 6
    (by decide)

/-! ### C9 — timeout outcome -/

/-- C9: when the scrape exceeds the 180-second wall-clock budget, the
orchestrator's updates for the job are exactly `RUNNING` followed by a final
`TIMEOUT` (not `FAILED`) carrying the fixed explanatory message and an
items-scraped count of 0 — and nothing further; replaying them against any
tracker that holds the job leaves it in state `timeout` with
`items_scraped = 0` and that message. -/
theorem timeout_outcome_final_state (t : Tracker) (jobId : String)
    (now : Nat) (h : (getJob t jobId).isSome) :
    taskUpdates "ubereats" .timedOut
      = [{ state := .running },
         { state := .timeout, errorMessage := some scrapeTimeoutMessage }]
    ∧ (getJob (applyTaskUpdates t jobId (taskUpdates "ubereats" .timedOut) now)
          jobId).map (fun j => (j.state, j.itemsScraped, j.errorMessage))
        = some (.timeout, 0, some scrapeTimeoutMessage) := by
  obtain ⟨j, hj⟩ := Option.isSome_iff_exists.mp h
  refine ⟨rfl, ?_⟩
  show (getJob
      (updateState (updateState t jobId .running 0 none now)
        jobId .timeout 0 (some scrapeTimeoutMessage) now) jobId).map _ = _
  rw [getJob_updateState, getJob_updateState, hj]
  rfl

/-- Concrete run of C9: a freshly created job driven through a timed-out
task ends in `timeout` with zero items and the fixed message. -/
theorem timeout_outcome_final_state_witness :
    (getJob
        (applyTaskUpdates
          (createJob { jobs := [], counter := 0 }
            "operator" "o1" "ubereats" "u" 5).1
          "scrape_1_5" (taskUpdates "ubereats" .timedOut) 6)
        "scrape_1_5").map (fun j => (j.state, j.itemsScraped, j.errorMessage))
      = some (.timeout, 0, some scrapeTimeoutMessage) :=
  (timeout_outcome_final_state _ "scrape_1_5" 6 (by decide)).2

/-! ### C1 — the `ScrapeResult` success/items invariant -/

/-- C1 counterexample: a `ScrapeResult` built with the dataclass defaults —
constructible at the scraper's public interface, and indeed the very value
`scrape` starts from at `ubereats_scraper.py` line 117 — has
`success = True` together with an empty item list, so the invariant does not
hold of every constructible `ScrapeResult` value. -/
theorem scrape_result_default_violates_invariant :
    ({ restaurantName := "Unknown" } : ScrapeResult).success = true
    ∧ ({ restaurantName := "Unknown" } : ScrapeResult).items = [] :=
  ⟨rfl, rfl⟩

/-- C1 amended: for every `ScrapeResult` returned by `scrape`,
`success = true` iff `items` is non-empty, and empty `items` comes with a
populated (`Some`) error message; values built directly from the dataclass
constructor's defaults are not covered by the invariant. -/
theorem scrape_success_iff_items_nonempty (name : String)
    (parsed : Except String (List ScrapedMenuItem)) :
    ((scrape name parsed).success = true ↔ (scrape name parsed).items ≠ [])
    ∧ ((scrape name parsed).items = []
        → (scrape name parsed).errorMessage ≠ none) := by
  cases parsed with
  | ok items =>
    cases items with
    | nil => simp [scrape]
    | cons it rest => simp [scrape]
  | error e => simp [scrape]

/-- Concrete runs of the amended C1: an empty parse yields a failed result
with a populated error, a raising scrape yields a non-success flag. -/
theorem scrape_success_iff_items_nonempty_witness :
    (scrape "R" (.ok [])).errorMessage ≠ none
    ∧ ¬((scrape "R" (.error "boom")).success = true) := by
  refine ⟨(scrape_success_iff_items_nonempty "R" (.ok [])).2 rfl, ?_⟩
  intro hs
  exact ((scrape_success_iff_items_nonempty "R" (.error "boom")).1.mp hs) rfl

/-! ### C4 — `is_session_fresh` -/

/-- C4: `is_session_fresh(r)` is unconditionally true for a local
(no-provider-token) browser; for a provider-backed live session it is true
exactly when the remaining time `max(0, lifetime - elapsed)` is at least
`r`. -/
theorem is_session_fresh_spec (st : BrowserState) (r : Int) (now : ℚ) :
    (st.hasToken = false → isSessionFresh st r now = true)
    ∧ (st.hasToken = true → st.browserLive = true →
        (isSessionFresh st r now = true ↔ (r : ℚ) ≤ getRemainingTime st now)) := by
  constructor
  · intro h
    simp [isSessionFresh, h]
  · intro htok hlive
    simp [isSessionFresh, htok, hlive]

/-- Concrete runs of C4: a token-backed session created at time 0 with the
60-second ceiling, asked at time 10 — fresh for 30 required seconds; and a
local browser is fresh regardless. -/
theorem is_session_fresh_spec_witness :
    isSessionFresh
        { hasToken := true, browserLive := true,
          sessionCreatedAt := some 0, sessionTimeoutSeconds := 60 }
        30 10 = true
    ∧ isSessionFresh { hasToken := false, browserLive := false } 1000 0 = true := by
  constructor
  · exact (is_session_fresh_spec
      { hasToken := true, browserLive := true,
        sessionCreatedAt := some 0, sessionTimeoutSeconds := 60 }
      30 10).2 rfl rfl |>.mpr (by norm_num [getRemainingTime])
  · exact (is_session_fresh_spec
      { hasToken := false, browserLive := false } 1000 0).1 rfl

/-! ### C5 — `ensure_fresh_session` reconnects stale sessions -/

/-- C5: for a provider-backed live session that is not fresh for `r`,
`ensure_fresh_session(r)` stops the session, sleeps the fixed 2-second
settle delay, and starts a new one; at the instant `now2` the restart
completes the session age is 0 and the remaining time is the full provider
lifetime (`max 0` of it).  Moreover a session with the 60-second provider
lifetime whose age is non-negative never has 65 seconds remaining, so
`ensure_fresh_session(65)` on such a session always takes the reconnect
branch rather than reporting fresh. -/
theorem ensure_fresh_session_resets_clock (st : BrowserState) (r : Int)
    (now now2 : ℚ) :
    (st.hasToken = true → st.browserLive = true →
      getRemainingTime st now < (r : ℚ) →
      ensureFreshSession st r now now2
          = ([.stopEv, .sleepEv reconnectDelaySeconds, .startEv],
             { st with browserLive := true, sessionCreatedAt := some now2 })
        ∧ getSessionAge (ensureFreshSession st r now now2).2 now2 = 0
        ∧ getRemainingTime (ensureFreshSession st r now now2).2 now2
            = max 0 st.sessionTimeoutSeconds)
    ∧ (st.sessionTimeoutSeconds = 60 →
        (∀ c, st.sessionCreatedAt = some c → c ≤ now) →
        getRemainingTime st now < ((65 : Int) : ℚ)) := by
  constructor
  · intro htok hlive hstale
    have heq : ensureFreshSession st r now now2
        = ([.stopEv, .sleepEv reconnectDelaySeconds, .startEv],
           { st with browserLive := true, sessionCreatedAt := some now2 }) := by
      simp only [ensureFreshSession, htok, hlive, Bool.not_true,
        Bool.false_eq_true, if_false, if_neg (by simp : ¬(false = true))]
      rw [if_pos hstale]
      simp [startSession, stopSession, htok]
    refine ⟨heq, ?_, ?_⟩
    · rw [heq]
      simp [getSessionAge]
    · rw [heq]
      simp [getRemainingTime]
  · intro h60 hage
    cases hc : st.sessionCreatedAt with
    | none =>
      simp only [getRemainingTime, hc]
      norm_num
    | some c =>
      have hcn : c ≤ now := hage c hc
      simp only [getRemainingTime, hc, h60]
      have h1 : (60 : ℚ) - (now - c) ≤ 60 := by linarith
      have h2 : ((65 : Int) : ℚ) = 65 := by norm_num
      rw [h2]
      have : max 0 ((60 : ℚ) - (now - c)) ≤ 60 := by
        apply max_le (by norm_num) h1
      linarith

/-- Concrete run of C5 (Scenario D): a 60-second session created at 0,
asked at time 10 to guarantee 65 seconds, reconnects (stop, 2-second sleep,
start) and at restart instant 12 has age 0 and the full 60 seconds
remaining. -/
theorem ensure_fresh_session_resets_clock_witness :
    ensureFreshSession
        { hasToken := true, browserLive := true,
          sessionCreatedAt := some 0, sessionTimeoutSeconds := 60 }
        65 10 12
      = ([.stopEv, .sleepEv reconnectDelaySeconds, .startEv],
         { hasToken := true, browserLive := true,
           sessionCreatedAt := some 12, sessionTimeoutSeconds := 60 })
    ∧ getRemainingTime
        (ensureFreshSession
          { hasToken := true, browserLive := true,
            sessionCreatedAt := some 0, sessionTimeoutSeconds := 60 }
          65 10 12).2 12 = 60 := by
  have h := ensure_fresh_session_resets_clock
    { hasToken := true, browserLive := true,
      sessionCreatedAt := some 0, sessionTimeoutSeconds := 60 } 65 10 12
  have hstale := h.2 rfl (by intro c hc; injection hc with hc; rw [← hc]; norm_num)
  obtain ⟨heq, _, hrem⟩ := h.1 rfl rfl hstale
  refine ⟨heq, ?_⟩
  rw [hrem]
  norm_num

/-! ### C3 — `with_session_retry` -/

/-- A non-session error at any attempt is re-raised at once: no reconnect,
no further attempt. -/
theorem retryLoop_nonsession_error {T : Type} (op : Nat → Except String T)
    (attempt remaining : Nat) (e : String) (hop : op attempt = .error e)
    (hne : isSessionExpiredError e = false) :
    retryLoop op attempt remaining = (.opError e, [.attemptEv attempt]) := by
  cases remaining <;> simp [retryLoop, hop, hne]

/-- Session-expiry errors at every attempt exhaust the retries and end in
`BrowserSessionExpiredError` carrying the last attempt's error. -/
theorem retryLoop_all_expired {T : Type} (op : Nat → Except String T) :
    ∀ (remaining attempt : Nat),
      (∀ i, attempt ≤ i → i ≤ attempt + remaining →
        ∃ e, op i = .error e ∧ isSessionExpiredError e = true) →
      ∀ e, op (attempt + remaining) = .error e →
      (retryLoop op attempt remaining).1 = .sessionExpired e := by
  intro remaining
  induction remaining with
  | zero =>
    intro attempt h e he
    rw [Nat.add_zero] at he
    obtain ⟨e', he', hexp⟩ := h attempt (le_refl _) (Nat.le_add_right _ _)
    rw [he'] at he
    injection he with he
    subst he
    simp [retryLoop, he', hexp]
  | succ r ih =>
    intro attempt h e he
    obtain ⟨e0, he0, hexp0⟩ := h attempt (le_refl _) (Nat.le_add_right _ _)
    have hstep : (retryLoop op attempt (r + 1)).1
        = (retryLoop op (attempt + 1) r).1 := by
      simp [retryLoop, he0, hexp0]
    rw [hstep]
    apply ih (attempt + 1)
    · intro i hi1 hi2
      exact h i (Nat.le_of_succ_le hi1) (by omega)
    · rw [show attempt + 1 + r = attempt + (r + 1) by omega]
      exact he

/-- An attempt that succeeds after only session-expiry failures returns the
operation's value. -/
theorem retryLoop_ok_after_expired {T : Type} (op : Nat → Except String T) :
    ∀ (remaining attempt k : Nat) (v : T),
      attempt ≤ k → k ≤ attempt + remaining → op k = .ok v →
      (∀ i, attempt ≤ i → i < k →
        ∃ e, op i = .error e ∧ isSessionExpiredError e = true) →
      (retryLoop op attempt remaining).1 = .ok v := by
  intro remaining
  induction remaining with
  | zero =>
    intro attempt k v h1 h2 hop _
    have hk : k = attempt := by omega
    subst hk
    simp [retryLoop, hop]
  | succ r ih =>
    intro attempt k v h1 h2 hop hprev
    rcases Nat.eq_or_lt_of_le h1 with heq | hlt
    · subst heq
      simp [retryLoop, hop]
    · obtain ⟨e0, he0, hexp0⟩ := hprev attempt (le_refl _) hlt
      have hstep : (retryLoop op attempt (r + 1)).1
          = (retryLoop op (attempt + 1) r).1 := by
        simp [retryLoop, he0, hexp0]
      rw [hstep]
      exact ih (attempt + 1) k v hlt (by omega) hop
        (fun i hi1 hi2 => hprev i (Nat.le_of_succ_le hi1) hi2)

/-- C3: `with_session_retry` first ensures session freshness and then runs
the operation; a failure matching the session-expiry signature triggers
reconnect-and-retry for up to `maxRetries` extra attempts, a non-matching
failure is re-raised immediately with no retry, exhausting every retry on
expiry errors raises the distinct `BrowserSessionExpiredError` (not the
operation's own error), and an attempt that succeeds within the budget after
expiry failures makes the whole call return that success. -/
theorem with_session_retry_contract {T : Type} (op : Nat → Except String T)
    (maxRetries : Nat) :
    ((withSessionRetry op maxRetries).2.head? = some .ensureFresh)
    ∧ (∀ e, op 0 = .error e → isSessionExpiredError e = false →
        withSessionRetry op maxRetries = (.opError e, [.ensureFresh, .attemptEv 0]))
    ∧ ((∀ i, i ≤ maxRetries →
          ∃ e, op i = .error e ∧ isSessionExpiredError e = true) →
        ∀ e, op maxRetries = .error e →
        (withSessionRetry op maxRetries).1 = .sessionExpired e)
    ∧ (∀ k (v : T), k ≤ maxRetries → op k = .ok v →
        (∀ i, i < k → ∃ e, op i = .error e ∧ isSessionExpiredError e = true) →
        (withSessionRetry op maxRetries).1 = .ok v) := by
  refine ⟨rfl, ?_, ?_, ?_⟩
  · intro e hop hne
    unfold withSessionRetry
    rw [retryLoop_nonsession_error op 0 maxRetries e hop hne]
  · intro h e he
    unfold withSessionRetry
    simp only
    apply retryLoop_all_expired op maxRetries 0
    · intro i _ hi2
      exact h i (by omega)
    · rw [Nat.zero_add]
      exact he
  · intro k v hk hop hprev
    unfold withSessionRetry
    simp only
    exact retryLoop_ok_after_expired op maxRetries 0 k v (Nat.zero_le _)
      (by omega) hop (fun i _ hi2 => hprev i hi2)

/-- Concrete runs of C3 (Scenario E included): an operation raising
`"target closed"` on the first attempt and succeeding on the second returns
the successful value under `maxRetries = 2`; an operation raising an
unrecognised error is re-raised with a single attempt and no reconnect. -/
theorem with_session_retry_contract_witness :
    (withSessionRetry
        (fun n => if n = 0 then Except.error "target closed" else Except.ok 7)
        2).1 = .ok 7
    ∧ withSessionRetry (fun _ => (Except.error "weird" : Except String Nat)) 2
        = (.opError "weird", [.ensureFresh, .attemptEv 0]) := by
  constructor
  · apply (with_session_retry_contract
      (fun n => if n = 0 then Except.error "target closed" else Except.ok 7)
      2).2.2.2 1 7 (by decide) rfl
    intro i hi
    have hi0 : i = 0 := by omega
    subst hi0
    exact ⟨"target closed", rfl, by decide⟩
  · exact (with_session_retry_contract
      (fun _ => (Except.error "weird" : Except String Nat)) 2).2.1
      "weird" rfl (by decide)

/-! ### C8 — name-source priority in the heuristic path -/

/-- C8 counterexample: for a container with both an image alt text and a
heading, `_extract_item_from_element` takes the alt text, not the heading —
the code's priority (`ubereats_scraper.py` lines 316-325) is image alt
first, `h3` second. -/
theorem alt_over_heading_counterexample :
    (extractItemFromElement
        { imgAlt := some "Alt Name", h3Text := some "Head Name" } 0 none).map
      ScrapedMenuItem.name = some "Alt Name"
    ∧ "Alt Name" ≠ "Head Name" := by decide

/-- C8 amended: the item name is chosen by prioritized lookup in the order
image alt text first (stripped, when the attribute is non-empty and strips
to something), then the `h3` heading text, then the first plausible span; a
lower-priority source is consulted only when every higher-priority source is
absent or empty. -/
theorem choose_name_priority (e : DomElement) :
    (∀ a, e.imgAlt = some a → a ≠ "" → trimString a ≠ "" →
      chooseName e = some (trimString a))
    ∧ ((∀ a, e.imgAlt = some a → a = "" ∨ trimString a = "") →
        ∀ t, e.h3Text = some t → t ≠ "" → chooseName e = some t)
    ∧ ((∀ a, e.imgAlt = some a → a = "" ∨ trimString a = "") →
        (∀ t, e.h3Text = some t → t = "") →
        ∀ s, e.spans.find? plausibleSpan = some s → chooseName e = some s) := by
  refine ⟨?_, ?_, ?_⟩
  · intro a ha hne htrim
    simp [chooseName, ha, hne, pyTruthy, htrim]
  · intro halt t ht htne
    cases hia : e.imgAlt with
    | none => simp [chooseName, hia, pyTruthy, ht, htne]
    | some a =>
      rcases halt a hia with h | h
      · subst h
        simp [chooseName, hia, pyTruthy, ht, htne]
      · by_cases hae : a = ""
        · subst hae
          simp [chooseName, hia, pyTruthy, ht, htne]
        · simp [chooseName, hia, hae, h, pyTruthy, ht, htne]
  · intro halt hh3 s hs
    have hh : e.h3Text = none ∨ e.h3Text = some "" := by
      cases hht : e.h3Text with
      | none => exact Or.inl rfl
      | some t => exact Or.inr (by rw [hh3 t hht])
    have hcases : ∀ hh1 : e.h3Text = none ∨ e.h3Text = some "",
        chooseName e = some s := by
      intro hh1
      cases hia : e.imgAlt with
      | none =>
        rcases hh1 with h3 | h3 <;> simp [chooseName, hia, h3, pyTruthy, hs]
      | some a =>
        rcases halt a hia with h | h
        · subst h
          rcases hh1 with h3 | h3 <;> simp [chooseName, hia, h3, pyTruthy, hs]
        · by_cases hae : a = ""
          · subst hae
            rcases hh1 with h3 | h3 <;>
              simp [chooseName, hia, h3, pyTruthy, hs]
          · rcases hh1 with h3 | h3 <;>
              simp [chooseName, hia, hae, h, h3, pyTruthy, hs]
    exact hcases hh

/-- Concrete runs of the amended C8: alt text wins when present; the
heading is used when the image alt is absent. -/
theorem choose_name_priority_witness :
    chooseName { imgAlt := some "Alt Name", h3Text := some "Head Name" }
      = some "Alt Name"
    ∧ chooseName { imgAlt := none, h3Text := some "Head Name" }
      = some "Head Name" := by
  constructor
  · have h := (choose_name_priority
      { imgAlt := some "Alt Name", h3Text := some "Head Name" }).1
      "Alt Name" rfl (by decide) (by decide)
    rw [h]
    decide
  · exact (choose_name_priority
      { imgAlt := none, h3Text := some "Head Name" }).2.1
      (by intro a ha; cases ha) "Head Name" rfl (by decide)

/-! ### C6 — noise filtering -/

/-- One acceptance step preserves "no UI-chrome names in the accumulator":
an item only enters when `_is_ui_element` rejects it as UI chrome fails. -/
theorem acceptElement_ui (st : ParseState) (e : DomElement)
    (cat : Option String)
    (h : ∀ it ∈ st.items, isUiElement it.name = false) :
    ∀ it ∈ (acceptElement st e cat).items, isUiElement it.name = false := by
  intro it hit
  unfold acceptElement at hit
  cases hx : extractItemFromElement e st.position cat with
  | none => rw [hx] at hit; exact h it hit
  | some item =>
    rw [hx] at hit
    by_cases hseen : item.name ∈ st.seen
    · simp [hseen] at hit
      exact h it hit
    · by_cases hui : isUiElement item.name
      · simp [hseen, hui] at hit
        exact h it hit
      · simp [hseen, hui] at hit
        rcases hit with hit | hit
        · exact h it hit
        · rw [hit]
          simpa using hui

/-- The element loop preserves the no-UI-names property. -/
theorem parseElements_ui (elems : List DomElement) :
    ∀ (st : ParseState) (cat : Option String),
      (∀ it ∈ st.items, isUiElement it.name = false) →
      ∀ it ∈ (parseElements st cat elems).items, isUiElement it.name = false := by
  induction elems with
  | nil => intro st cat h; exact h
  | cons e rest ih =>
    intro st cat h
    exact ih (acceptElement st e cat) cat (acceptElement_ui st e cat h)

/-- The section loop preserves the no-UI-names property. -/
theorem parseSections_ui (secs : List DomSection) :
    ∀ (st : ParseState),
      (∀ it ∈ st.items, isUiElement it.name = false) →
      ∀ it ∈ (parseSections st secs).items, isUiElement it.name = false := by
  induction secs with
  | nil => intro st h; exact h
  | cons s rest ih =>
    intro st h
    exact ih (parseElements st s.categoryTitle s.items)
      (parseElements_ui s.items st s.categoryTitle h)

/-- C6 counterexample: the JSON-LD extraction path applies no noise filter,
so a structured menu item named "Sign In" — a configured UI phrase — does
appear in the extractor's final output. -/
theorem json_ld_sign_in_counterexample :
    (parseMenuHtml
        { scripts := [some [{ name := some "Menu",
                              items := [{ name := some "Sign In" }] }]] }).map
      ScrapedMenuItem.name = ["Sign In"]
    ∧ isUiElement "Sign In" = true := by decide

/-- C6 amended: in the heuristic DOM parsing path no item whose name
matches a configured UI-chrome phrase or is degenerate (shorter than 3
characters) appears in the final output — every output item has
`_is_ui_element` false; the structured JSON-LD path performs no such
filtering. -/
theorem heuristic_output_no_ui_elements (doc : Doc) :
    ∀ it ∈ parseMenuFromHtml doc, isUiElement it.name = false := by
  unfold parseMenuFromHtml
  have h1 := parseSections_ui doc.sections {} (by intro it hit; cases hit)
  by_cases hempty : (parseSections {} doc.sections).items.isEmpty
  · simp only [hempty, if_pos]
    exact parseElements_ui doc.allStoreItems (parseSections {} doc.sections)
      none h1
  · simp only [hempty, if_neg]
    simpa using h1

/-- Concrete run of the amended C6: the item extracted for a burger
container is not UI chrome. -/
theorem heuristic_output_no_ui_elements_witness :
    isUiElement
      (ScrapedMenuItem.name
        { name := "Burger", price := 5, category := some "Burgers",
          description := none, isAvailable := true, position := 0 })
      = false :=
  heuristic_output_no_ui_elements
    { sections := [{ categoryTitle := some "Burgers",
                     items := [{ imgAlt := some "Burger",
                                 priceMatch := some 5 }] }] }
    { name := "Burger", price := 5, category := some "Burgers",
      description := none, isAvailable := true, position := 0 }
    (by decide)

/-! ### C7 — deduplication, first occurrence wins, consecutive positions -/

/-- `_extract_item_from_element`, factored through the extracted name:
the produced item is determined by the name, with the price, description
and the given category/position attached. -/
theorem extractItemFromElement_eq (e : DomElement) (p : Nat)
    (cat : Option String) :
    extractItemFromElement e p cat
      = (extractedName e).map (fun n =>
          { name := n, price := e.priceMatch.getD 0, category := cat,
            description := e.calMatch.map (fun c => c ++ " calories"),
            position := p }) := by
  unfold extractItemFromElement extractedName
  cases chooseName e with
  | none => rfl
  | some n =>
    by_cases h : n = "" ∨ n.length < 2
    · simp [h]
    · simp [h]

/-- First-occurrence dedup produces no duplicates and nothing already
seen. -/
theorem dedupFirstAux_nodup (l : List String) :
    ∀ seen, (dedupFirstAux seen l).Nodup
      ∧ ∀ n ∈ dedupFirstAux seen l, n ∉ seen := by
  induction l with
  | nil =>
    intro seen
    exact ⟨List.nodup_nil, by intro n h; cases h⟩
  | cons m rest ih =>
    intro seen
    by_cases hm : m ∈ seen
    · simp only [dedupFirstAux, if_pos hm]
      exact ih seen
    · simp only [dedupFirstAux, if_neg hm]
      obtain ⟨hnd, hmem⟩ := ih (seen ++ [m])
      refine ⟨List.nodup_cons.mpr ⟨?_, hnd⟩, ?_⟩
      · intro hmm
        exact hmem m hmm (by simp)
      · intro n hn
        rcases List.mem_cons.mp hn with hn | hn
        · rw [hn]; exact hm
        · intro hns
          exact hmem n hn (by simp [hns])

/-- Splitting first-occurrence dedup across an append: the second part is
deduplicated relative to the names the first part contributed. -/
theorem dedupFirstAux_append (l1 : List String) :
    ∀ (l2 seen : List String),
      dedupFirstAux seen (l1 ++ l2)
        = dedupFirstAux seen l1
          ++ dedupFirstAux (seen ++ dedupFirstAux seen l1) l2 := by
  induction l1 with
  | nil =>
    intro l2 seen
    simp [dedupFirstAux]
  | cons m rest ih =>
    intro l2 seen
    by_cases hm : m ∈ seen
    · simp only [List.cons_append, dedupFirstAux, if_pos hm]
      exact ih l2 seen
    · simp only [List.cons_append, dedupFirstAux, if_neg hm]
      rw [show rest.append l2 = rest ++ l2 from rfl, ih l2 (seen ++ [m])]
      simp [List.append_assoc]

/-- Accepted-name lists distribute over cons. -/
theorem acceptedNames_cons (e : DomElement) (rest : List DomElement) :
    acceptedNames (e :: rest) = acceptedName e ++ acceptedNames rest := by
  simp [acceptedNames]

/-- Accepted-name lists across sections distribute over cons. -/
theorem acceptedNamesSections_cons (s : DomSection) (rest : List DomSection) :
    acceptedNamesSections (s :: rest)
      = acceptedNames s.items ++ acceptedNamesSections rest := by
  simp [acceptedNamesSections]

/-- One acceptance step: the invariant is preserved and the name list grows
by exactly the first-occurrence-filtered accepted name of the candidate. -/
theorem acceptElement_spec (st : ParseState) (e : DomElement)
    (cat : Option String) (h : GoodState st) :
    GoodState (acceptElement st e cat)
    ∧ (acceptElement st e cat).items.map (·.name)
        = st.items.map (·.name) ++ dedupFirstAux st.seen (acceptedName e) := by
  obtain ⟨hseen, hpos, hconsec⟩ := h
  unfold acceptElement acceptedName
  rw [extractItemFromElement_eq]
  cases hx : extractedName e with
  | none =>
    exact ⟨⟨hseen, hpos, hconsec⟩, by simp [dedupFirstAux]⟩
  | some n =>
    simp only [Option.map_some']
    by_cases hns : n ∈ st.seen
    · by_cases hui : isUiElement n
      · simp only [hns, hui]
        refine ⟨⟨hseen, hpos, hconsec⟩, ?_⟩
        simp [dedupFirstAux, hns, hui]
      · simp only [hns, hui]
        refine ⟨⟨hseen, hpos, hconsec⟩, ?_⟩
        simp [dedupFirstAux, hns, hui]
    · by_cases hui : isUiElement n
      · simp only [hns, hui]
        refine ⟨⟨hseen, hpos, hconsec⟩, ?_⟩
        simp [dedupFirstAux, hns, hui]
      · simp only [hns, hui]
        refine ⟨⟨?_, ?_, ?_⟩, ?_⟩
        · simp [hseen]
        · simp [hpos]
        · simp [hconsec, hpos, List.range_succ]
        · simp [dedupFirstAux, hns, hui]

/-- The element loop: invariants are preserved and the name list grows by
the first-occurrence dedup of the candidates' accepted names. -/
theorem parseElements_spec (elems : List DomElement) :
    ∀ (st : ParseState) (cat : Option String), GoodState st →
      GoodState (parseElements st cat elems)
      ∧ (parseElements st cat elems).items.map (·.name)
          = st.items.map (·.name)
            ++ dedupFirstAux st.seen (acceptedNames elems) := by
  induction elems with
  | nil =>
    intro st cat h
    exact ⟨h, by simp [parseElements, acceptedNames, dedupFirstAux]⟩
  | cons e rest ih =>
    intro st cat h
    obtain ⟨hg, hnames⟩ := acceptElement_spec st e cat h
    obtain ⟨hg2, hnames2⟩ := ih (acceptElement st e cat) cat hg
    refine ⟨hg2, ?_⟩
    have hstep : parseElements st cat (e :: rest)
        = parseElements (acceptElement st e cat) cat rest := rfl
    rw [hstep, hnames2, hnames, acceptedNames_cons, dedupFirstAux_append]
    have hseen2 : (acceptElement st e cat).seen
        = st.seen ++ dedupFirstAux st.seen (acceptedName e) := by
      rw [hg.1, hnames, h.1]
    rw [hseen2]
    simp [List.append_assoc]

/-- The section loop: invariants are preserved and the name list grows by
the first-occurrence dedup of the sections' accepted names. -/
theorem parseSections_spec (secs : List DomSection) :
    ∀ (st : ParseState), GoodState st →
      GoodState (parseSections st secs)
      ∧ (parseSections st secs).items.map (·.name)
          = st.items.map (·.name)
            ++ dedupFirstAux st.seen (acceptedNamesSections secs) := by
  induction secs with
  | nil =>
    intro st h
    exact ⟨h, by simp [parseSections, acceptedNamesSections, dedupFirstAux]⟩
  | cons s rest ih =>
    intro st h
    obtain ⟨hg, hnames⟩ := parseElements_spec s.items st s.categoryTitle h
    obtain ⟨hg2, hnames2⟩ := ih (parseElements st s.categoryTitle s.items) hg
    refine ⟨hg2, ?_⟩
    have hstep : parseSections st (s :: rest)
        = parseSections (parseElements st s.categoryTitle s.items) rest := rfl
    rw [hstep, hnames2, hnames, acceptedNamesSections_cons, dedupFirstAux_append]
    have hseen2 : (parseElements st s.categoryTitle s.items).seen
        = st.seen ++ dedupFirstAux st.seen (acceptedNames s.items) := by
      rw [hg.1, hnames, h.1]
    rw [hseen2]
    simp [List.append_assoc]

/-- C7 counterexample: the JSON-LD extraction path does not deduplicate, so
two structured candidates with the identical name "Burger" both appear in
the extractor's final output (with positions 0 and 1). -/
theorem json_ld_duplicate_counterexample :
    (parseMenuHtml
        { scripts := [some [{ name := some "Menu",
                              items := [{ name := some "Burger" },
                                        { name := some "Burger" }] }]] }).map
      ScrapedMenuItem.name = ["Burger", "Burger"] := by decide

/-- C7 amended: within the heuristic parsing path the output names are
pairwise distinct, the accepted items carry consecutive positions
`0, 1, 2, ...` in document order, and the name sequence is exactly the
first-occurrence deduplication of the accepted candidate names (of the
catalog sections, or of the document-wide fallback list when the sections
yield nothing) — so each name's single item sits at the position of its
first accepted occurrence.  The structured JSON-LD path performs no
deduplication. -/
theorem heuristic_dedup_first_wins (doc : Doc) :
    ((parseMenuFromHtml doc).map (·.name)).Nodup
    ∧ (parseMenuFromHtml doc).map (·.position)
        = List.range (parseMenuFromHtml doc).length
    ∧ (parseMenuFromHtml doc).map (·.name)
        = (if dedupFirstAux [] (acceptedNamesSections doc.sections) = []
           then dedupFirstAux [] (acceptedNames doc.allStoreItems)
           else dedupFirstAux [] (acceptedNamesSections doc.sections)) := by
  have h0 : GoodState {} := ⟨rfl, rfl, rfl⟩
  obtain ⟨hg1, hn1⟩ := parseSections_spec doc.sections {} h0
  simp only [List.map_nil, List.nil_append] at hn1
  by_cases hempty : (parseSections {} doc.sections).items.isEmpty
  · have hitems : (parseSections {} doc.sections).items = [] := by
      simpa using hempty
    have hseen1 : (parseSections {} doc.sections).seen = [] := by
      rw [hg1.1, hitems]; rfl
    have hcond : dedupFirstAux [] (acceptedNamesSections doc.sections) = [] := by
      rw [← hn1, hitems]; rfl
    obtain ⟨hg2, hn2⟩ :=
      parseElements_spec doc.allStoreItems (parseSections {} doc.sections)
        none hg1
    have hout : parseMenuFromHtml doc
        = (parseElements (parseSections {} doc.sections) none
            doc.allStoreItems).items := by
      unfold parseMenuFromHtml
      simp only [hempty, if_pos]
    rw [hitems, hseen1] at hn2
    simp only [List.map_nil, List.nil_append] at hn2
    refine ⟨?_, ?_, ?_⟩
    · rw [hout, hn2]
      exact (dedupFirstAux_nodup (acceptedNames doc.allStoreItems) []).1
    · rw [hout]
      exact hg2.2.2
    · rw [hout, hn2, if_pos hcond]
  · have hcond : ¬(dedupFirstAux [] (acceptedNamesSections doc.sections) = []) := by
      intro hc
      rw [← hn1] at hc
      have : (parseSections {} doc.sections).items = [] := by
        cases hI : (parseSections {} doc.sections).items with
        | nil => rfl
        | cons a l => rw [hI] at hc; cases hc
      exact hempty (by simp [this])
    have hout : parseMenuFromHtml doc
        = (parseSections {} doc.sections).items := by
      unfold parseMenuFromHtml
      simp only [hempty, if_neg]
      simp
    refine ⟨?_, ?_, ?_⟩
    · rw [hout, hn1]
      exact (dedupFirstAux_nodup (acceptedNamesSections doc.sections) []).1
    · rw [hout]
      exact hg1.2.2
    · rw [hout, hn1, if_neg hcond]

end Forkast
